import Mathlib

/-!
Shallow embedding of `src/nullaxe/functions/_infer_types.py` (the type-inference
engine of the Nullaxe repository) and proofs about the claims of its
specification.

Modelling conventions:
* A dataframe cell is `Option Val`: `none` is a missing value (NaN / null),
  `Val` one of the scalar kinds the engine produces or consumes.
* Machine floats are modelled by exact rationals (`Rat`); division and the
  threshold comparisons of the Python code are exact rational arithmetic.
* Timestamps are abstract integers ("nanoseconds since epoch").  String
  datetime parsing is modelled as ISO `YYYY-MM-DD` parsing (the pandas
  generic parser and the polars ISO fast path accept at least this format);
  the exact numeric encoding of a date never matters below, only
  success/failure and injectivity of the encoding.
* `pd.to_datetime(..., errors="coerce")` on non-string scalars follows the
  pandas semantics: integers and floats are interpreted as epoch
  nanoseconds (so they parse successfully), datetimes are kept, and a
  value the parser cannot handle becomes null.
* `pd.to_numeric(..., errors="coerce")` parses decimal literals (sign,
  digits, optional fractional part); scientific notation is not modelled,
  no statement below depends on it.
* `full_num.astype("Int64")` raises a `TypeError` when an integral value
  lies outside the int64 range, and the pandas branch has no try/except:
  the branch is therefore modelled in `Except String` (`numCastPd`,
  `processColumnPd`, `inferTypesPdLoop`), the loop keeping the
  partially-converted frame a propagating exception leaves behind under
  `inplace=True`.  Values being exact rationals, the range check is
  exact; machine-float rounding near the int64 boundary is not modelled.
* polars `cast(pl.Int64, strict=False)` turns out-of-int64-range values
  into null (`parseIntString`, `plIntFn`).
-/

namespace Nullaxe

/-- A present (non-null) cell value: text, integer, float, boolean or
datetime scalar. -/
inductive Val where
  | vstr (s : String)
  | vint (n : Int)
  | vfloat (q : Rat)
  | vbool (b : Bool)
  | vdt (t : Int)
deriving DecidableEq

/-- A cell: `none` models NaN / None / NaT / null. -/
abbrev Cell := Option Val

/-- Column storage types.  `text` is pandas `object` / polars `Utf8`. -/
inductive Dtype where
  | text
  | int64
  | float64
  | boolean
  | datetime
  | category
deriving DecidableEq

/-- A column: its storage dtype and its cells. -/
structure Column where
  dtype : Dtype
  values : List Cell
deriving DecidableEq

/-- A dataframe: named columns in order. -/
structure DF where
  cols : List (String × Column)
deriving DecidableEq

/-- The keyword arguments of `infer_types`. -/
structure Config where
  numericThreshold : Rat
  datetimeThreshold : Rat
  categoryUniqueRatio : Rat
  inplace : Bool
deriving DecidableEq

/-- The documented defaults: 0.6, 0.6, 0.05, inplace=True.  Fractions are
exact rationals (`mkRat a b` is the exact quotient `a / b`). -/
def defaultConfig : Config :=
  { numericThreshold := mkRat 6 10
    datetimeThreshold := mkRat 6 10
    categoryUniqueRatio := mkRat 5 100
    inplace := true }

/-! ### String parsing primitives -/

/-- Numeric value of a digit string. -/
def digitsToNat (cs : List Char) : Nat :=
  cs.foldl (fun a c => a * 10 + (c.toNat - 48)) 0

/-- Python `str.strip()`: drop whitespace at both ends. -/
def trimChars (cs : List Char) : List Char :=
  ((cs.dropWhile Char.isWhitespace).reverse.dropWhile Char.isWhitespace).reverse

/-- Python `str.lower()`. -/
def lowerChars (cs : List Char) : List Char :=
  cs.map Char.toLower

/-- ISO `YYYY-MM-DD` parser; result is an abstract epoch-nanosecond
timestamp (an injective encoding of the calendar date). -/
def parseISODate (s : String) : Option Int :=
  match s.toList with
  | [y1, y2, y3, y4, '-', m1, m2, '-', d1, d2] =>
    if ([y1, y2, y3, y4].all Char.isDigit && [m1, m2].all Char.isDigit
        && [d1, d2].all Char.isDigit) then
      let y := digitsToNat [y1, y2, y3, y4]
      let m := digitsToNat [m1, m2]
      let d := digitsToNat [d1, d2]
      if 1 ≤ m && m ≤ 12 && 1 ≤ d && d ≤ 31 then
        some (((y * 372 + m * 31 + d : Nat) : Int) * 86400000000000)
      else none
    else none
  | _ => none

/-- `MM/DD/YYYY` parser, standing in for the extra formats the generic
(format-inferring) datetime parsers accept beyond ISO. -/
def parseSlashDate (s : String) : Option Int :=
  match s.toList with
  | [m1, m2, '/', d1, d2, '/', y1, y2, y3, y4] =>
    parseISODate (String.mk [y1, y2, y3, y4, '-', m1, m2, '-', d1, d2])
  | _ => none

/-- The generic datetime parser (pandas `pd.to_datetime` on strings, polars
format-inferred `strptime`): ISO or slash format. -/
def parseGenericDate (s : String) : Option Int :=
  match parseISODate s with
  | some t => some t
  | none => parseSlashDate s

/-- An unsigned decimal literal, as an exact numerator/denominator pair:
digits with an optional single `.` and fractional digits (at least one
digit overall).  `ip.fp` with `k` fractional digits denotes
`(ip * 10^k + fp) / 10^k`. -/
def parseUnsignedNumber (cs : List Char) : Option (Nat × Nat) :=
  if cs.contains '.' then
    match cs.span (fun c => c != '.') with
    | (ip, fpWithDot) =>
      match fpWithDot with
      | [] => none
      | _ :: fp =>
        if fp.contains '.' then none
        else if ip.all Char.isDigit && fp.all Char.isDigit
              && (!ip.isEmpty || !fp.isEmpty) then
          some (digitsToNat ip * 10 ^ fp.length + digitsToNat fp, 10 ^ fp.length)
        else none
  else if !cs.isEmpty && cs.all Char.isDigit then
    some (digitsToNat cs, 1)
  else none

/-- `pd.to_numeric` / `float()` on a string: optional surrounding
whitespace, optional sign, decimal literal; the result is the exact
rational value. -/
def parseNumber (s : String) : Option Rat :=
  match trimChars s.toList with
  | [] => none
  | '-' :: rest => (parseUnsignedNumber rest).map (fun p => mkRat (-((p.1 : Nat) : Int)) p.2)
  | '+' :: rest => (parseUnsignedNumber rest).map (fun p => mkRat ((p.1 : Nat) : Int) p.2)
  | cs => (parseUnsignedNumber cs).map (fun p => mkRat ((p.1 : Nat) : Int) p.2)

/-! ### Scalar conversions (pandas branch) -/

/-- `pd.to_datetime(v, errors="coerce")` on one present scalar.  Integers
and floats are epoch nanoseconds (floats truncated), strings go through
the generic parser, datetimes are kept, booleans do not convert. -/
def toDatetimeVal : Val → Option Int
  | .vstr s => parseGenericDate s
  | .vint n => some n
  | .vfloat q => some q.floor
  | .vbool _ => none
  | .vdt t => some t

/-- `pd.to_numeric(v, errors="coerce")` on one present scalar. -/
def toNumericVal : Val → Option Rat
  | .vstr s => parseNumber s
  | .vint n => some ((n : Rat))
  | .vfloat q => some q
  | .vbool b => some (if b then 1 else 0)
  | .vdt _ => none

/-- `str(v)` as used by `s.astype(str)` on a present scalar.  Floats and
datetimes are rendered with a marker so that (as in Python, where a float
rendering always contains `.` or `e`) they never hit a boolean token. -/
def valToStr : Val → String
  | .vstr s => s
  | .vint n => toString n
  | .vfloat q => "f" ++ toString q.num ++ "/" ++ toString q.den
  | .vbool b => if b then "True" else "False"
  | .vdt t => "dt" ++ toString t

/-- `s.astype(str)` on a cell: a missing value renders as `"nan"`. -/
def cellToStr : Cell → String
  | none => "nan"
  | some v => valToStr v

/-- The fixed boolean token table, applied after `.strip().lower()`:
`{"true": True, "false": False, "yes": True, "no": False, "1": True,
"0": False}`. -/
def boolToken (s : String) : Option Bool :=
  let t := String.mk (lowerChars (trimChars s.toList))
  if t = "true" || t = "yes" || t = "1" then some true
  else if t = "false" || t = "no" || t = "0" then some false
  else none

/-- `_all_int_like`: an empty series is not int-like; otherwise every
value must have no fractional remainder. -/
def allIntLike (qs : List Rat) : Bool :=
  !qs.isEmpty && qs.all (fun q => q.den == 1)

/-! ### Per-column statistics (pandas branch) -/

/-- `s.dropna()`: the present values of a column. -/
def nonNull (c : Column) : List Val :=
  c.values.filterMap id

/-- `len(non_null)`. -/
def nonNullCount (c : Column) : Nat :=
  (nonNull c).length

/-- `pd.to_datetime(non_null, errors="coerce").notna().sum()`. -/
def dtSuccPd (c : Column) : Nat :=
  ((nonNull c).filterMap toDatetimeVal).length

/-- Datetime parse-success ratio over non-null values. -/
def dtRatioPd (c : Column) : Rat :=
  mkRat (dtSuccPd c) (nonNullCount c)

/-- `pd.to_numeric(non_null, errors="coerce").notna().sum()`. -/
def numSuccPd (c : Column) : Nat :=
  ((nonNull c).filterMap toNumericVal).length

/-- Numeric parse-success ratio over non-null values. -/
def numRatioPd (c : Column) : Rat :=
  mkRat (numSuccPd c) (nonNullCount c)

/-- `non_null.astype(str).str.strip().str.lower().map(bool_map).notna().sum()`. -/
def boolSuccPd (c : Column) : Nat :=
  ((nonNull c).filterMap (fun v => boolToken (valToStr v))).length

/-- Boolean token-mapping success ratio over non-null values. -/
def boolRatioPd (c : Column) : Rat :=
  mkRat (boolSuccPd c) (nonNullCount c)

/-- `non_null.nunique()`: distinct present values (pandas excludes nulls). -/
def nuniquePd (c : Column) : Nat :=
  (nonNull c).dedup.length

/-- `non_null.nunique() / len(non_null)`. -/
def uniqueRatioPd (c : Column) : Rat :=
  mkRat (nuniquePd c) (nonNullCount c)

/-! ### Column casts (pandas branch) -/

/-- `pd.to_datetime(cell, errors="coerce")`. -/
def toDatetimeCell (c : Cell) : Cell :=
  c.bind (fun v => (toDatetimeVal v).map Val.vdt)

/-- `df[col] = pd.to_datetime(s, errors="coerce")`. -/
def dtCastPd (c : Column) : Column :=
  ⟨.datetime, c.values.map toDatetimeCell⟩

/-- `pd.to_numeric(cell, errors="coerce")` as a rational. -/
def toNumericCellQ (c : Cell) : Option Rat :=
  c.bind toNumericVal

/-- Does an integer fit in a signed 64-bit integer? -/
def fitsInt64 (n : Int) : Bool :=
  decide (-(2 ^ 63) ≤ n) && decide (n < 2 ^ 63)

/-- The message of the `TypeError` that `full_num.astype("Int64")` raises
when an integral float value is outside the int64 range; the pandas
branch has no try/except around it, so it propagates out of
`infer_types`. -/
def int64CastError : String := "cannot safely cast non-equivalent float64 to int64"

/-- The numeric cast: `full_num = pd.to_numeric(s, errors="coerce")`, then
`Int64` storage when `_all_int_like(full_num.dropna())` — where
`astype("Int64")` raises if an integral value does not fit in int64 —
and `Float64` storage otherwise. -/
def numCastPd (c : Column) : Except String Column :=
  if allIntLike ((c.values.map toNumericCellQ).filterMap id) then
    if ((c.values.map toNumericCellQ).filterMap id).all (fun q => fitsInt64 q.floor) then
      .ok ⟨.int64, (c.values.map toNumericCellQ).map (fun o => o.map (fun q => Val.vint q.floor))⟩
    else .error int64CastError
  else
    .ok ⟨.float64, (c.values.map toNumericCellQ).map (fun o => o.map Val.vfloat)⟩

/-- `df[col] = s.astype(str).str.strip().str.lower().map(bool_map)
.astype("boolean")`; a null cell renders as `"nan"`, which is not in the
table, hence stays null. -/
def boolCastPd (c : Column) : Column :=
  ⟨.boolean, c.values.map (fun cell => (boolToken (cellToStr cell)).map Val.vbool)⟩

/-- `df[col] = s.astype("category")`: values unchanged, dtype changes. -/
def categoryCastPd (c : Column) : Column :=
  ⟨.category, c.values⟩

/-- One pandas-branch loop iteration for a single column: the
datetime → numeric → boolean → category cascade with `>=` / `<=`
threshold tests, skipping an all-null column.  Only the numeric step can
fail (the Int64 `astype` raise); every other step is total. -/
def processColumnPd (cfg : Config) (c : Column) : Except String Column :=
  if nonNullCount c = 0 then .ok c
  else if cfg.datetimeThreshold ≤ dtRatioPd c then .ok (dtCastPd c)
  else if cfg.numericThreshold ≤ numRatioPd c then numCastPd c
  else if mkRat 95 100 ≤ boolRatioPd c then .ok (boolCastPd c)
  else if uniqueRatioPd c ≤ cfg.categoryUniqueRatio then .ok (categoryCastPd c)
  else .ok c

/-! ### Dataframe level (pandas branch) -/

/-- `df.columns`. -/
def colNames (df : DF) : List String :=
  df.cols.map Prod.fst

/-- `df[name] = f(df[name])`: replace the named column in place (order,
names and the other columns untouched). -/
def updateCol (df : DF) (name : String) (f : Column → Column) : DF :=
  ⟨df.cols.map (fun p => if p.1 = name then (p.1, f p.2) else p)⟩

/-- `list(df.columns) if subset is None else [c for c in subset if c in
df.columns]`. -/
def selectCols (df : DF) (subset : Option (List String)) : List String :=
  match subset with
  | none => colNames df
  | some s => s.filter (fun c => (colNames df).contains c)

/-- `df[name] = <rhs>` where computing `<rhs>` may raise: the named
column is replaced on success; on an exception the frame is left as it
was (the assignment never happens). -/
def updateColsE (name : String) (f : Column → Except String Column) :
    List (String × Column) → Except String (List (String × Column))
  | [] => .ok []
  | p :: ps =>
    if p.1 = name then
      match f p.2 with
      | .ok c2 =>
        match updateColsE name f ps with
        | .ok qs => .ok ((p.1, c2) :: qs)
        | .error e => .error e
      | .error e => .error e
    else
      match updateColsE name f ps with
      | .ok qs => .ok (p :: qs)
      | .error e => .error e

/-- `updateColsE` at the frame level. -/
def updateColE (df : DF) (name : String) (f : Column → Except String Column) :
    Except String DF :=
  match updateColsE name f df.cols with
  | .ok qs => .ok ⟨qs⟩
  | .error e => .error e

/-- The pandas branch loop: process the selected columns in order; an
exception aborts the loop, leaving the frame in the state reached so far
(the pair's second component is the propagating error, if any). -/
def inferTypesPdLoop (cfg : Config) : List String → DF → DF × Option String
  | [], df => (df, none)
  | n :: rest, df =>
    match updateColE df n (processColumnPd cfg) with
    | .ok df2 => inferTypesPdLoop cfg rest df2
    | .error e => (df, some e)

/-- The pandas branch: the loop's result, or the propagated exception. -/
def inferTypesPdCore (cfg : Config) (subset : Option (List String)) (df : DF) :
    Except String DF :=
  match inferTypesPdLoop cfg (selectCols df subset) df with
  | (df2, none) => .ok df2
  | (_, some e) => .error e

/-! ### Polars branch

Dtype-level cast failures (polars raises e.g. on Boolean → Datetime or on
Int64 → Categorical) are modelled as `none` at the column level: the
`try/except: pass` around each cast swallows them.  A `some` result models
`strict=False`: individual failures become null. -/

/-- The string content of a Utf8 cell (a non-string value in a Utf8
column cannot occur in a well-formed frame; it is treated as null). -/
def plStrVal : Val → Option String
  | .vstr s => some s
  | _ => none

/-- `series.null_count()`. -/
def nullCount (l : List Cell) : Nat :=
  l.countP (fun c => c.isNone)

/-- `(total - parsed.null_count()) / non_null`, the polars branch's
parse-success ratio. -/
def plRatio (total nn : Nat) (parsed : List Cell) : Rat :=
  mkRat ((total - nullCount parsed : Nat)) nn

/-- An elementwise `strict=False` conversion: apply `g` beneath the
nulls; an individual failure becomes null. -/
def castFamily (g : Val → Option Val) (l : List Cell) : List Cell :=
  l.map (fun cell => cell.bind g)

/-- `series.str.strptime(pl.Datetime, format="%Y-%m-%d", strict=False)`. -/
def plParseIsoCol (c : Column) : List Cell :=
  castFamily (fun v => ((plStrVal v).bind parseISODate).map Val.vdt) c.values

/-- `series.str.strptime(pl.Datetime, strict=False)` (format inferred). -/
def plParseGenericCol (c : Column) : List Cell :=
  castFamily (fun v => ((plStrVal v).bind parseGenericDate).map Val.vdt) c.values

/-- The elementwise conversion `series.cast(pl.Datetime, strict=False)`
performs for each non-Utf8 source dtype; `none` means the cast raises at
the dtype level (Boolean / Categorical), to be caught by `except`. -/
def plDatetimeFn : Dtype → Option (Val → Option Val)
  | .int64 => some (fun v => match v with | .vint n => some (.vdt n) | _ => none)
  | .float64 => some (fun v => match v with | .vfloat q => some (.vdt q.floor) | _ => none)
  | .datetime => some (fun v => match v with | .vdt t => some (.vdt t) | _ => none)
  | _ => none

/-- `series.cast(pl.Datetime, strict=False)` for non-Utf8 dtypes. -/
def plCastDatetime (c : Column) : Option (List Cell) :=
  (plDatetimeFn c.dtype).map (fun g => castFamily g c.values)

/-- The datetime attempt of the polars branch: for Utf8, the ISO fast path
then the generic parse; otherwise a direct cast.  `some` is the
`dt_candidate` that reached `datetime_threshold`. -/
def plDtCandidate (cfg : Config) (total : Nat) (c : Column) : Option (List Cell) :=
  if c.dtype = .text then
    if cfg.datetimeThreshold ≤ plRatio total (total - nullCount c.values) (plParseIsoCol c) then
      some (plParseIsoCol c)
    else if cfg.datetimeThreshold ≤
        plRatio total (total - nullCount c.values) (plParseGenericCol c) then
      some (plParseGenericCol c)
    else none
  else
    match plCastDatetime c with
    | some casted =>
      if cfg.datetimeThreshold ≤ plRatio total (total - nullCount c.values) casted then
        some casted
      else none
    | none => none

/-- polars `str` → `i64` parse (`strict=False`): optional sign, digits;
a value outside the int64 range becomes null. -/
def parseIntString (s : String) : Option Int :=
  match s.toList with
  | [] => none
  | '-' :: rest =>
    if !rest.isEmpty && rest.all Char.isDigit && fitsInt64 (-((digitsToNat rest : Nat) : Int))
    then some (-((digitsToNat rest : Nat) : Int))
    else none
  | '+' :: rest =>
    if !rest.isEmpty && rest.all Char.isDigit && fitsInt64 ((digitsToNat rest : Nat) : Int)
    then some (((digitsToNat rest : Nat) : Int))
    else none
  | cs =>
    if !cs.isEmpty && cs.all Char.isDigit && fitsInt64 ((digitsToNat cs : Nat) : Int)
    then some (((digitsToNat cs : Nat) : Int))
    else none

/-- `has_decimal`: does any of the first 50 non-null sampled strings
contain `.` or (after lowercasing) `e`?  Only computed for Utf8. -/
def plHasDecimal (c : Column) : Bool :=
  if c.dtype = .text then
    (((c.values.filterMap id).take 50).filterMap plStrVal).any
      (fun v => v.toList.contains '.' || (lowerChars v.toList).contains 'e')
  else false

/-- `series.cast(pl.Int64, strict=False)`; `none` models the
unsupported-cast exception (Categorical). -/
def plIntFn : Dtype → Option (Val → Option Val)
  | .text => some (fun v => ((plStrVal v).bind parseIntString).map Val.vint)
  | .int64 => some (fun v => match v with | .vint n => some (.vint n) | _ => none)
  | .float64 => some (fun v => match v with
      | .vfloat q => if fitsInt64 q.floor then some (.vint q.floor) else none
      | _ => none)
  | .boolean => some (fun v => match v with
      | .vbool b => some (.vint (if b then 1 else 0)) | _ => none)
  | .datetime => some (fun v => match v with | .vdt t => some (.vint t) | _ => none)
  | .category => none

/-- `series.cast(pl.Int64, strict=False)` built from `plIntFn`. -/
def plCastInt (c : Column) : Option (List Cell) :=
  (plIntFn c.dtype).map (fun g => castFamily g c.values)

/-- `series.cast(pl.Float64, strict=False)`; `none` models the
unsupported-cast exception (Datetime / Categorical). -/
def plFloatFn : Dtype → Option (Val → Option Val)
  | .text => some (fun v => ((plStrVal v).bind parseNumber).map Val.vfloat)
  | .int64 => some (fun v => match v with | .vint n => some (.vfloat ((n : Rat))) | _ => none)
  | .float64 => some (fun v => match v with | .vfloat q => some (.vfloat q) | _ => none)
  | .boolean => some (fun v => match v with
      | .vbool b => some (.vfloat (if b then 1 else 0)) | _ => none)
  | _ => none

/-- `series.cast(pl.Float64, strict=False)` built from `plFloatFn`. -/
def plCastFloat (c : Column) : Option (List Cell) :=
  (plFloatFn c.dtype).map (fun g => castFamily g c.values)

/-- The polars boolean expression:
`when(lower.is_in(["true","1","yes"])).then(True)
.when(lower.is_in(["false","0","no"])).then(False).otherwise(None)`.
Note: lowercase only, no strip. -/
def plBoolMapCell (cell : Cell) : Cell :=
  cell.bind (fun v =>
    match plStrVal v with
    | none => none
    | some s =>
      let t := String.mk (lowerChars s.toList)
      if t = "true" || t = "1" || t = "yes" then some (.vbool true)
      else if t = "false" || t = "0" || t = "no" then some (.vbool false)
      else none)

/-- `pl.col(col).n_unique()`: polars counts null as one distinct value. -/
def plNUnique (c : Column) : Nat :=
  c.values.dedup.length

/-- `pl.col(col).cast(pl.Categorical)`; valid only from Utf8 or
Categorical, otherwise the exception is swallowed. -/
def plCastCategory (c : Column) : Option (List Cell) :=
  if c.dtype = .text ∨ c.dtype = .category then some c.values else none

/-- The `2) NUMERIC INT` step: skipped when a sampled string shows a
decimal point or exponent; fires when the Int64 cast's success ratio
reaches `numeric_threshold`. -/
def plTryInt (cfg : Config) (total nn : Nat) (c : Column) : Option Column :=
  if plHasDecimal c then none
  else
    match plCastInt c with
    | some vs =>
      if cfg.numericThreshold ≤ plRatio total nn vs then some ⟨.int64, vs⟩ else none
    | none => none

/-- The `2b) NUMERIC FLOAT` step. -/
def plTryFloat (cfg : Config) (total nn : Nat) (c : Column) : Option Column :=
  match plCastFloat c with
  | some vs =>
    if cfg.numericThreshold ≤ plRatio total nn vs then some ⟨.float64, vs⟩ else none
  | none => none

/-- The `3) BOOLEAN` step: only attempted on Utf8 columns, with the fixed
`0.95` threshold. -/
def plTryBool (_cfg : Config) (total nn : Nat) (c : Column) : Option Column :=
  if c.dtype = .text then
    if mkRat 95 100 ≤ plRatio total nn (c.values.map plBoolMapCell) then
      some ⟨.boolean, c.values.map plBoolMapCell⟩
    else none
  else none

/-- The `4) CATEGORY` step: `n_unique / max(1, non_null) <=
category_unique_ratio`; if the comparison holds but the Categorical cast
raises (non-string dtype), the exception is swallowed and the column is
untouched. -/
def plCategoryStep (cfg : Config) (nn : Nat) (c : Column) : Column :=
  if mkRat (plNUnique c) (max 1 nn) ≤ cfg.categoryUniqueRatio then
    match plCastCategory c with
    | some vs => ⟨.category, vs⟩
    | none => c
  else c

/-- One polars-branch loop iteration for a single column. `total` is
`df.height`, computed once before the loop. -/
def processColumnPl (cfg : Config) (total : Nat) (c : Column) : Column :=
  if total - nullCount c.values = 0 then c
  else
    match plDtCandidate cfg total c with
    | some vs => ⟨.datetime, vs⟩
    | none =>
      match plTryInt cfg total (total - nullCount c.values) c with
      | some col => col
      | none =>
        match plTryFloat cfg total (total - nullCount c.values) c with
        | some col => col
        | none =>
          match plTryBool cfg total (total - nullCount c.values) c with
          | some col => col
          | none => plCategoryStep cfg (total - nullCount c.values) c

/-- `df.height`. -/
def height (df : DF) : Nat :=
  match df.cols with
  | [] => 0
  | c :: _ => c.2.values.length

/-- The polars branch loop applied to every selected column (`total`
taken from the input frame, as in the source). -/
def inferTypesPlCore (cfg : Config) (subset : Option (List String)) (df : DF) : DF :=
  (selectCols df subset).foldl
    (fun acc name => updateCol acc name (processColumnPl cfg (height df))) df

/-! ### Top level -/

/-- The argument of `infer_types`: a pandas frame, a polars frame, or
anything else. -/
inductive Input where
  | pandas (df : DF)
  | polars (df : DF)
  | notTabular
deriving DecidableEq

/-- `infer_types`: dispatch on the container type; any other input raises
`TypeError`. -/
def infer_types (inp : Input) (subset : Option (List String)) (cfg : Config) : Except String DF :=
  match inp with
  | .pandas df => inferTypesPdCore cfg subset df
  | .polars df => .ok (inferTypesPlCore cfg subset df)
  | .notTabular => .error "Input must be a pandas or polars DataFrame."

/-- The value the caller's argument denotes after the call: the pandas
branch mutates the argument when `inplace=True` (so on an exception the
caller sees the state the loop reached) and works on `df.copy()`
otherwise; the polars branch only rebinds its local `df`
(`df = df.with_columns(...)`), never mutating the argument. -/
def callerAfter (inp : Input) (subset : Option (List String)) (cfg : Config) : Input :=
  match inp with
  | .pandas df =>
    .pandas (if cfg.inplace then (inferTypesPdLoop cfg (selectCols df subset) df).1 else df)
  | .polars df => .polars df
  | .notTabular => .notTabular

/-! ### Derived predicates and concrete instances used in the claims -/

/-- Convenience constructor: a text column from optional strings. -/
def strCol (l : List (Option String)) : Column :=
  ⟨.text, l.map (fun o => o.map Val.vstr)⟩

/-- A cell that is null or a datetime scalar (the shape of every cell of
a column the engine has cast to datetime). -/
def isDtCell : Cell → Bool
  | none => true
  | some (.vdt _) => true
  | some _ => false

/-- "The numeric heuristic would reach its threshold" for the polars
branch: the int path (no sampled decimal marker) or the float path
attains `numeric_threshold`. -/
def plNumericReaches (cfg : Config) (total : Nat) (c : Column) : Prop :=
  (plHasDecimal c = false ∧ ∃ vs, plCastInt c = some vs ∧
      cfg.numericThreshold ≤ plRatio total (total - nullCount c.values) vs) ∨
  (∃ vs, plCastFloat c = some vs ∧
      cfg.numericThreshold ≤ plRatio total (total - nullCount c.values) vs)

/-- Thresholds 0.5 / 0.5: both heuristics reach them on `c2col`. -/
def c2cfg : Config :=
  { numericThreshold := mkRat 1 2
    datetimeThreshold := mkRat 1 2
    categoryUniqueRatio := mkRat 5 100
    inplace := true }

/-- Half ISO dates, half integers. -/
def c2col : Column := strCol [some "2024-01-01", some "5"]

/-- The spec's integer scenario `['1','2','3']`. -/
def c3df : DF := ⟨[("ints", strCol [some "1", some "2", some "3"])]⟩

/-- The result of one pass of `infer_types` over `c3df`. -/
def c3once : DF := ⟨[("ints", ⟨.int64, [some (.vint 1), some (.vint 2), some (.vint 3)]⟩)]⟩

/-- The result of a second pass of `infer_types`, over `c3once`. -/
def c3twice : DF := ⟨[("ints", ⟨.datetime, [some (.vdt 1), some (.vdt 2), some (.vdt 3)]⟩)]⟩

/-- A datetime column as produced by the engine's datetime cast. -/
def c3wcol : Column := ⟨.datetime, [some (.vdt 5), none]⟩

/-- `numeric_threshold = 0`: the numeric heuristic wins with zero parse
successes. -/
def c4cfg : Config := { defaultConfig with numericThreshold := 0 }

/-- A column with no numerically parseable value. -/
def c4col : Column := strCol [some "x"]

/-- `c4col` as a one-column frame. -/
def c4df : DF := ⟨[("c", c4col)]⟩

/-- All values integral: Int64 storage. -/
def c4wcolInt : Column := strCol [some "1", some "2"]

/-- A non-integral value: Float64 storage. -/
def c4wcolFloat : Column := strCol [some "1.5"]

/-- Integer-valued decimals: the polars sample check sees the decimal
point and skips the Int64 step. -/
def c4plcol : Column := strCol [some "1.0", some "2.0"]

/-- `c4plcol` as a one-column polars frame. -/
def c4pldf : DF := ⟨[("f", c4plcol)]⟩

/-- A 30-digit integral value: numeric wins, `_all_int_like` passes, and
`astype("Int64")` raises. -/
def hugeCol : Column := strCol [some "123456789012345678901234567890"]

/-- `hugeCol` as a one-column pandas frame. -/
def hugeDf : DF := ⟨[("h", hugeCol)]⟩

/-- Float parse-success ratio exactly 1/2 (the polars int step is skipped
because of the decimal point). -/
def c8plfloatCol : Column := strCol [some "1.5", some "x"]

/-- Boolean tokens with surrounding whitespace: the claimed
strip-and-lowercase normalization maps them all, the polars branch maps
none of them. -/
def c5col : Column := strCol (List.replicate 20 (some " true"))

/-- `c5col` as a one-column polars frame. -/
def c5df : DF := ⟨[("b", c5col)]⟩

/-- Mixed-case boolean tokens with whitespace for the pandas branch. -/
def c5wcol : Column := strCol [some "TRUE ", some "no"]

/-- Clean lowercase boolean tokens for the polars branch. -/
def c5plcol : Column := strCol (List.replicate 20 (some "true"))

/-- Twenty copies of one value and a null: 1 distinct present value in 20
non-null values. -/
def c6col : Column := strCol (List.replicate 20 (some "a") ++ [none])

/-- `c6col` as a one-column frame. -/
def c6df : DF := ⟨[("u", c6col)]⟩

/-- Twenty copies of one value, no null. -/
def c6plwcol : Column := strCol (List.replicate 20 (some "a"))

/-- A small frame with a numeric-looking and a text column. -/
def c7df : DF := ⟨[("s", strCol [some "a", some "b"])]⟩

/-- Exact-boundary datetime configuration (threshold 0.5). -/
def c8cfg1 : Config :=
  { numericThreshold := mkRat 9 10
    datetimeThreshold := mkRat 1 2
    categoryUniqueRatio := mkRat 5 100
    inplace := true }

/-- Exact-boundary numeric configuration (threshold 0.5). -/
def c8cfg2 : Config :=
  { numericThreshold := mkRat 1 2
    datetimeThreshold := mkRat 9 10
    categoryUniqueRatio := mkRat 5 100
    inplace := true }

/-- High datetime/numeric thresholds so the boolean attempt is reached. -/
def c8cfg3 : Config :=
  { numericThreshold := mkRat 9 10
    datetimeThreshold := mkRat 9 10
    categoryUniqueRatio := mkRat 5 100
    inplace := true }

/-- Datetime parse-success ratio exactly 1/2. -/
def c8dtCol : Column := strCol [some "2024-01-01", some "x"]

/-- Numeric parse-success ratio exactly 1/2. -/
def c8numCol : Column := strCol [some "1", some "x"]

/-- Boolean mapping success ratio exactly 19/20 = 0.95. -/
def c8boolCol : Column := strCol (List.replicate 19 (some "true") ++ [some "x"])

/-- The defaults with `inplace=False`. -/
def c9cfg : Config := { defaultConfig with inplace := false }

/-- A small frame whose column would be converted. -/
def c9df : DF := ⟨[("n", strCol [some "1", some "2"])]⟩

/-! ### Shape and null preservation -/

theorem length_filterMap_of_all {α β : Type} (f : α → Option β) (l : List α)
    (h : ∀ a ∈ l, (f a).isSome) : (l.filterMap f).length = l.length := by
  induction l with
  | nil => rfl
  | cons a t ih =>
    obtain ⟨b, hb⟩ := Option.isSome_iff_exists.mp (h a (List.mem_cons_self a t))
    rw [List.filterMap_cons, hb]
    simp only [List.length_cons]
    rw [ih (fun x hx => h x (List.mem_cons_of_mem a hx))]

theorem eq_of_map_self {α : Type} (f : α → α) :
    ∀ (l : List α), l = l.map f → ∀ x ∈ l, x = f x := by
  intro l
  induction l with
  | nil =>
    intro _ x hx
    cases hx
  | cons a t ih =>
    intro h x hx
    rw [List.map_cons] at h
    injection h with h1 h2
    cases List.mem_cons.mp hx with
    | inl he =>
      rw [he]
      exact h1
    | inr ht => exact ih h2 x ht

theorem mkRat_nat_self (n : Nat) (h : n ≠ 0) : mkRat (n : Int) n = 1 := by
  rw [Rat.mkRat_eq_div]
  push_cast
  rw [div_self]
  exact_mod_cast h

theorem mem_nonNull {v : Val} {c : Column} : v ∈ nonNull c ↔ some v ∈ c.values := by
  unfold nonNull
  simp [List.mem_filterMap]

theorem allIntLike_true_iff (qs : List Rat) :
    allIntLike qs = true ↔ qs ≠ [] ∧ ∀ q ∈ qs, q.den = 1 := by
  unfold allIntLike
  simp [List.all_eq_true, List.isEmpty_iff]

/-! ### Claim theorems -/

/-- C2: on any column where the datetime heuristic and the numeric
heuristic would both reach their thresholds, the datetime attempt runs
first and wins: the column is cast to datetime storage, never numeric, in
both backends. -/
theorem datetime_wins_over_numeric (cfg : Config) (c : Column) (total : Nat) :
    (nonNullCount c ≠ 0 →
      cfg.datetimeThreshold ≤ dtRatioPd c →
      cfg.numericThreshold ≤ numRatioPd c →
      processColumnPd cfg c = .ok (dtCastPd c) ∧ (dtCastPd c).dtype = .datetime) ∧
    (∀ vs, total - nullCount c.values ≠ 0 →
      plDtCandidate cfg total c = some vs →
      plNumericReaches cfg total c →
      processColumnPl cfg total c = ⟨.datetime, vs⟩ ∧
        (processColumnPl cfg total c).dtype = .datetime) := by
  constructor
  · intro hnn hdt _
    unfold processColumnPd
    rw [if_neg hnn, if_pos hdt]
    exact ⟨rfl, rfl⟩
  · intro vs hnn hdt _
    unfold processColumnPl
    rw [if_neg hnn, hdt]
    exact ⟨rfl, rfl⟩

/-- C2 witness: with thresholds 0.5 the column `["2024-01-01", "5"]` has
datetime ratio 1/2 and numeric ratio 1/2, and both backends cast it to
datetime. -/
theorem datetime_wins_over_numeric_witness :
    processColumnPd c2cfg c2col = .ok (dtCastPd c2col) ∧
    processColumnPl c2cfg 2 c2col = ⟨.datetime, plParseIsoCol c2col⟩ :=
  ⟨((datetime_wins_over_numeric c2cfg c2col 2).1 (by decide) (by decide) (by decide)).1,
   ((datetime_wins_over_numeric c2cfg c2col 2).2 (plParseIsoCol c2col) (by decide) (by decide)
      (Or.inr ⟨[none, some (.vfloat 5)], by decide, by decide⟩)).1⟩

/-- C8: threshold comparisons are inclusive (`>=`, not `>`): a column
whose parse-success ratio equals the applicable threshold exactly —
`datetime_threshold`, `numeric_threshold`, or the fixed boolean 0.95 —
is converted, in the pandas branch and likewise in the polars branch
(its ISO datetime, Int64, Float64 and boolean ratio tests all use
`>=`). -/
theorem thresholds_inclusive (cfg : Config) (c : Column) (total : Nat) :
    (nonNullCount c ≠ 0 → dtRatioPd c = cfg.datetimeThreshold →
      processColumnPd cfg c = .ok (dtCastPd c)) ∧
    (nonNullCount c ≠ 0 → ¬ cfg.datetimeThreshold ≤ dtRatioPd c →
      numRatioPd c = cfg.numericThreshold →
      processColumnPd cfg c = numCastPd c) ∧
    (nonNullCount c ≠ 0 → ¬ cfg.datetimeThreshold ≤ dtRatioPd c →
      ¬ cfg.numericThreshold ≤ numRatioPd c →
      boolRatioPd c = mkRat 95 100 →
      processColumnPd cfg c = .ok (boolCastPd c)) ∧
    (c.dtype = .text → total - nullCount c.values ≠ 0 →
      plRatio total (total - nullCount c.values) (plParseIsoCol c) = cfg.datetimeThreshold →
      processColumnPl cfg total c = ⟨.datetime, plParseIsoCol c⟩) ∧
    (∀ vs, total - nullCount c.values ≠ 0 →
      plDtCandidate cfg total c = none →
      plHasDecimal c = false →
      plCastInt c = some vs →
      plRatio total (total - nullCount c.values) vs = cfg.numericThreshold →
      processColumnPl cfg total c = ⟨.int64, vs⟩) ∧
    (∀ vs, total - nullCount c.values ≠ 0 →
      plDtCandidate cfg total c = none →
      plTryInt cfg total (total - nullCount c.values) c = none →
      plCastFloat c = some vs →
      plRatio total (total - nullCount c.values) vs = cfg.numericThreshold →
      processColumnPl cfg total c = ⟨.float64, vs⟩) ∧
    (total - nullCount c.values ≠ 0 →
      plDtCandidate cfg total c = none →
      plTryInt cfg total (total - nullCount c.values) c = none →
      plTryFloat cfg total (total - nullCount c.values) c = none →
      c.dtype = .text →
      plRatio total (total - nullCount c.values) (c.values.map plBoolMapCell) = mkRat 95 100 →
      processColumnPl cfg total c = ⟨.boolean, c.values.map plBoolMapCell⟩) := by
  refine ⟨?_, ?_, ?_, ?_, ?_, ?_, ?_⟩
  · intro hnn heq
    unfold processColumnPd
    rw [if_neg hnn, if_pos (le_of_eq heq.symm)]
  · intro hnn hdt heq
    unfold processColumnPd
    rw [if_neg hnn, if_neg hdt, if_pos (le_of_eq heq.symm)]
  · intro hnn hdt hnum heq
    unfold processColumnPd
    rw [if_neg hnn, if_neg hdt, if_neg hnum, if_pos (le_of_eq heq.symm)]
  · intro htext hnn heq
    have hcand : plDtCandidate cfg total c = some (plParseIsoCol c) := by
      unfold plDtCandidate
      rw [if_pos htext, if_pos (le_of_eq heq.symm)]
    unfold processColumnPl
    rw [if_neg hnn, hcand]
  · intro vs hnn hdtn hdec hcast heq
    have hti : plTryInt cfg total (total - nullCount c.values) c = some ⟨.int64, vs⟩ := by
      unfold plTryInt
      rw [if_neg (by rw [hdec]; exact Bool.false_ne_true), hcast]
      show (if cfg.numericThreshold ≤ plRatio total (total - nullCount c.values) vs then
          some (⟨.int64, vs⟩ : Column) else none) = some ⟨.int64, vs⟩
      rw [if_pos (le_of_eq heq.symm)]
    unfold processColumnPl
    rw [if_neg hnn, hdtn, hti]
  · intro vs hnn hdtn hint hcast heq
    have htf : plTryFloat cfg total (total - nullCount c.values) c = some ⟨.float64, vs⟩ := by
      unfold plTryFloat
      rw [hcast]
      show (if cfg.numericThreshold ≤ plRatio total (total - nullCount c.values) vs then
          some (⟨.float64, vs⟩ : Column) else none) = some ⟨.float64, vs⟩
      rw [if_pos (le_of_eq heq.symm)]
    unfold processColumnPl
    rw [if_neg hnn, hdtn, hint, htf]
  · intro hnn hdtn hint hfl htext heq
    have htb : plTryBool cfg total (total - nullCount c.values) c =
        some ⟨.boolean, c.values.map plBoolMapCell⟩ := by
      unfold plTryBool
      rw [if_pos htext, if_pos (le_of_eq heq.symm)]
    unfold processColumnPl
    rw [if_neg hnn, hdtn, hint, hfl, htb]

/-- C8 witness: ratios exactly 1/2, 1/2 and 19/20 = 0.95 fire the
datetime, numeric and boolean conversions in the pandas branch, and the
corresponding polars comparisons fire the ISO datetime, Int64, Float64
and boolean conversions. -/
theorem thresholds_inclusive_witness :
    processColumnPd c8cfg1 c8dtCol = .ok (dtCastPd c8dtCol) ∧
    processColumnPd c8cfg2 c8numCol = numCastPd c8numCol ∧
    processColumnPd c8cfg3 c8boolCol = .ok (boolCastPd c8boolCol) ∧
    processColumnPl c8cfg1 2 c8dtCol = ⟨.datetime, plParseIsoCol c8dtCol⟩ ∧
    processColumnPl c8cfg2 2 c8numCol = ⟨.int64, [some (.vint 1), none]⟩ ∧
    processColumnPl c8cfg2 2 c8plfloatCol = ⟨.float64, [some (.vfloat (mkRat 3 2)), none]⟩ ∧
    processColumnPl c8cfg3 20 c8boolCol = ⟨.boolean, c8boolCol.values.map plBoolMapCell⟩ :=
  ⟨(thresholds_inclusive c8cfg1 c8dtCol 2).1 (by decide) (by decide),
   (thresholds_inclusive c8cfg2 c8numCol 2).2.1 (by decide) (by decide) (by decide),
   (thresholds_inclusive c8cfg3 c8boolCol 20).2.2.1 (by decide) (by decide) (by decide)
     (by decide),
   (thresholds_inclusive c8cfg1 c8dtCol 2).2.2.2.1 rfl (by decide) (by decide),
   (thresholds_inclusive c8cfg2 c8numCol 2).2.2.2.2.1 [some (.vint 1), none]
     (by decide) (by decide) (by decide) (by decide) (by decide),
   (thresholds_inclusive c8cfg2 c8plfloatCol 2).2.2.2.2.2.1
     [some (.vfloat (mkRat 3 2)), none]
     (by decide) (by decide) (by decide) (by decide) (by decide),
   (thresholds_inclusive c8cfg3 c8boolCol 20).2.2.2.2.2.2 (by decide) (by decide)
     (by decide) (by decide) rfl (by decide)⟩

/-- C9: with `inplace=False` the pandas branch works on `df.copy()`: the
caller's dataset value is unchanged after the call, whatever the loop
does (so the caller never observes a partially-converted state), and the
converted result is available only through the return value. -/
theorem inplace_false_caller_unchanged (df : DF) (subset : Option (List String)) (cfg : Config)
    (h : cfg.inplace = false) :
    callerAfter (.pandas df) subset cfg = .pandas df ∧
    infer_types (.pandas df) subset cfg = inferTypesPdCore cfg subset df := by
  constructor
  · unfold callerAfter
    rw [h]
    simp
  · rfl

/-- C9 witness at a frame the engine would otherwise convert. -/
theorem inplace_false_caller_unchanged_witness :
    callerAfter (.pandas c9df) none c9cfg = .pandas c9df :=
  (inplace_false_caller_unchanged c9df none c9cfg rfl).1

/-- C10: the polars branch ignores `inplace` entirely: it only rebinds
its local `df` via `with_columns`, so for every configuration (including
the default `inplace=True`) the caller's polars dataset is unchanged and
the converted frame is available only through the return value. -/
theorem polars_never_mutates_caller (df : DF) (subset : Option (List String)) (cfg : Config) :
    callerAfter (.polars df) subset cfg = .polars df ∧
    infer_types (.polars df) subset cfg = .ok (inferTypesPlCore cfg subset df) :=
  ⟨rfl, rfl⟩

theorem map_toDatetimeCell_id (l : List Cell) (h : l.all isDtCell = true) :
    l.map toDatetimeCell = l := by
  induction l with
  | nil => rfl
  | cons a t ih =>
    rw [List.all_cons, Bool.and_eq_true] at h
    rw [List.map_cons, ih h.2]
    congr 1
    cases a with
    | none => rfl
    | some v =>
      cases v with
      | vdt t2 => rfl
      | vstr s => exact Bool.noConfusion h.1
      | vint n => exact Bool.noConfusion h.1
      | vfloat q => exact Bool.noConfusion h.1
      | vbool b => exact Bool.noConfusion h.1

/-- C3 counterexample: `infer_types` is not idempotent.  The first pass
casts the text column `["1","2","3"]` to Int64; on the second pass
`pd.to_datetime` succeeds on every integer (epoch interpretation), its
ratio 1 ≥ 0.6 fires, and the Int64 column is re-cast to datetime, so
applying the engine twice differs from applying it once. -/
theorem infer_types_not_idempotent :
    infer_types (.pandas c3df) none defaultConfig = .ok c3once ∧
    infer_types (.pandas c3once) none defaultConfig = .ok c3twice ∧
    c3twice ≠ c3once :=
  ⟨rfl, rfl, by decide⟩

/-- C3 amended: a second pass is not the identity in general (an integer
column from the first pass becomes datetime, see the counterexample), but
a column whose cells are datetimes — the shape produced by the engine's
datetime cast — is a fixed point of the per-column procedure whenever
`datetime_threshold ≤ 1`: its datetime parse ratio is 1, the datetime
attempt wins again, and re-parsing datetimes is the identity. -/
theorem processColumnPd_fixes_datetime (cfg : Config) (c : Column)
    (hd : c.dtype = .datetime)
    (hv : c.values.all isDtCell = true)
    (hnn : nonNullCount c ≠ 0)
    (ht : cfg.datetimeThreshold ≤ 1) :
    processColumnPd cfg c = .ok c := by
  have hall : ∀ v ∈ nonNull c, (toDatetimeVal v).isSome := by
    intro v hv2
    have hmem : some v ∈ c.values := mem_nonNull.mp hv2
    have hdc := (List.all_eq_true.mp hv) _ hmem
    cases v with
    | vdt t => rfl
    | vstr s => exact Bool.noConfusion hdc
    | vint n => exact Bool.noConfusion hdc
    | vfloat q => exact Bool.noConfusion hdc
    | vbool b => exact Bool.noConfusion hdc
  have hsucc : dtSuccPd c = nonNullCount c :=
    length_filterMap_of_all toDatetimeVal (nonNull c) hall
  have hratio : dtRatioPd c = 1 := by
    unfold dtRatioPd
    rw [hsucc]
    exact mkRat_nat_self _ hnn
  have hfire : cfg.datetimeThreshold ≤ dtRatioPd c := by
    rw [hratio]
    exact ht
  unfold processColumnPd
  rw [if_neg hnn, if_pos hfire]
  unfold dtCastPd
  obtain ⟨d, vals⟩ := c
  simp only at hd hv ⊢
  rw [map_toDatetimeCell_id vals hv, hd]

/-- C3 amended witness: a concrete datetime column is left unchanged. -/
theorem processColumnPd_fixes_datetime_witness :
    processColumnPd defaultConfig c3wcol = .ok c3wcol :=
  processColumnPd_fixes_datetime defaultConfig c3wcol rfl (by decide) (by decide) (by decide)

/-- C4 counterexample: integer-valued columns that do not get integer
storage.  Polars `["1.0","2.0"]`: every parsed value is integral, but the
`has_decimal` sample check sees the decimal points, skips the Int64 step,
and the float step casts to Float64.  Pandas `["x"]` with
`numeric_threshold = 0`: the numeric heuristic wins with zero parse
successes — every successfully-parsed value is (vacuously) integral —
yet `_all_int_like` is False on the empty series and the cast is
Float64. -/
theorem int_like_not_int64_counterexample :
    (∀ q ∈ (c4plcol.values.map toNumericCellQ).filterMap id, q.den = 1) ∧
    plCastFloat c4plcol = some [some (.vfloat 1), some (.vfloat 2)] ∧
    infer_types (.polars c4pldf) none defaultConfig =
      .ok ⟨[("f", ⟨.float64, [some (.vfloat 1), some (.vfloat 2)]⟩)]⟩ ∧
    c4cfg.numericThreshold ≤ numRatioPd c4col ∧
    ¬ c4cfg.datetimeThreshold ≤ dtRatioPd c4col ∧
    (c4col.values.map toNumericCellQ).filterMap id = [] ∧
    infer_types (.pandas c4df) none c4cfg = .ok ⟨[("c", ⟨.float64, [none]⟩)]⟩ :=
  ⟨by decide, by decide, rfl, by decide, by decide, by decide, rfl⟩

/-- C4 amended: when the numeric heuristic wins, the pandas branch casts
with parse failures becoming null and gets Int64 storage exactly when at
least one value parses, every parsed value is integral, and every parsed
value fits in int64; it gets Float64 storage when some parsed value has a
fractional remainder or when no value parses at all, and raises the
`astype("Int64")` error when the values are integral but one is outside
the int64 range.  The polars branch uses Int64 only when additionally no
sampled string shows `.` or `e` and the Int64-cast ratio passes;
otherwise the float step gives Float64 storage even when every parsed
value is integral. -/
theorem numeric_step_behavior (cfg : Config) (c : Column) (total : Nat) :
    (nonNullCount c ≠ 0 →
      ¬ cfg.datetimeThreshold ≤ dtRatioPd c →
      cfg.numericThreshold ≤ numRatioPd c →
      processColumnPd cfg c = numCastPd c ∧
      (((c.values.map toNumericCellQ).filterMap id ≠ [] ∧
          (∀ q ∈ (c.values.map toNumericCellQ).filterMap id, q.den = 1) ∧
          (∀ q ∈ (c.values.map toNumericCellQ).filterMap id, fitsInt64 q.floor = true)) →
        numCastPd c = .ok ⟨.int64,
          (c.values.map toNumericCellQ).map (fun o => o.map (fun q => Val.vint q.floor))⟩) ∧
      ((∃ q ∈ (c.values.map toNumericCellQ).filterMap id, q.den ≠ 1) →
        numCastPd c = .ok ⟨.float64,
          (c.values.map toNumericCellQ).map (fun o => o.map Val.vfloat)⟩) ∧
      ((c.values.map toNumericCellQ).filterMap id = [] →
        numCastPd c = .ok ⟨.float64,
          (c.values.map toNumericCellQ).map (fun o => o.map Val.vfloat)⟩) ∧
      (((c.values.map toNumericCellQ).filterMap id ≠ [] ∧
          (∀ q ∈ (c.values.map toNumericCellQ).filterMap id, q.den = 1) ∧
          (∃ q ∈ (c.values.map toNumericCellQ).filterMap id, ¬ fitsInt64 q.floor = true)) →
        numCastPd c = .error int64CastError)) ∧
    (total - nullCount c.values ≠ 0 →
      plDtCandidate cfg total c = none →
      (plHasDecimal c = false →
        ∀ vs, plCastInt c = some vs →
        cfg.numericThreshold ≤ plRatio total (total - nullCount c.values) vs →
        processColumnPl cfg total c = ⟨.int64, vs⟩) ∧
      (plTryInt cfg total (total - nullCount c.values) c = none →
        ∀ vs, plCastFloat c = some vs →
        cfg.numericThreshold ≤ plRatio total (total - nullCount c.values) vs →
        processColumnPl cfg total c = ⟨.float64, vs⟩)) := by
  constructor
  · intro hnn hdt hnum
    refine ⟨?_, ?_, ?_, ?_, ?_⟩
    · unfold processColumnPd
      rw [if_neg hnn, if_neg hdt, if_pos hnum]
    · rintro ⟨hne, hden, hfit⟩
      unfold numCastPd
      rw [if_pos ((allIntLike_true_iff _).mpr ⟨hne, hden⟩),
        if_pos (List.all_eq_true.mpr hfit)]
    · rintro ⟨q, hq, hden⟩
      unfold numCastPd
      rw [if_neg (fun hal => hden (((allIntLike_true_iff _).mp hal).2 q hq))]
    · intro hempty
      unfold numCastPd
      rw [if_neg (fun hal => ((allIntLike_true_iff _).mp hal).1 hempty)]
    · rintro ⟨hne, hden, q, hq, hbad⟩
      unfold numCastPd
      rw [if_pos ((allIntLike_true_iff _).mpr ⟨hne, hden⟩),
        if_neg (fun hall => hbad ((List.all_eq_true.mp hall) q hq))]
  · intro hnn hdtn
    constructor
    · intro hdec vs hcast hge
      have hti : plTryInt cfg total (total - nullCount c.values) c = some ⟨.int64, vs⟩ := by
        unfold plTryInt
        rw [if_neg (by rw [hdec]; exact Bool.false_ne_true), hcast]
        show (if cfg.numericThreshold ≤ plRatio total (total - nullCount c.values) vs then
            some (⟨.int64, vs⟩ : Column) else none) = some ⟨.int64, vs⟩
        rw [if_pos hge]
      unfold processColumnPl
      rw [if_neg hnn, hdtn, hti]
    · intro hint vs hcast hge
      have htf : plTryFloat cfg total (total - nullCount c.values) c =
          some ⟨.float64, vs⟩ := by
        unfold plTryFloat
        rw [hcast]
        show (if cfg.numericThreshold ≤ plRatio total (total - nullCount c.values) vs then
            some (⟨.float64, vs⟩ : Column) else none) = some ⟨.float64, vs⟩
        rw [if_pos hge]
      unfold processColumnPl
      rw [if_neg hnn, hdtn, hint, htf]

/-- C4 amended witness: `["1","2"]` gets Int64 storage in both branches,
`["1.5"]` gets Float64 storage, the zero-success column `["x"]` (numeric
threshold 0) gets all-null Float64 storage, a 30-digit integral value
raises the Int64 cast error, and polars `["1.0","2.0"]` gets Float64
storage despite being integer-valued. -/
theorem numeric_step_behavior_witness :
    processColumnPd defaultConfig c4wcolInt = numCastPd c4wcolInt ∧
    numCastPd c4wcolInt = .ok ⟨.int64, [some (.vint 1), some (.vint 2)]⟩ ∧
    numCastPd c4wcolFloat = .ok ⟨.float64, [some (.vfloat (mkRat 3 2))]⟩ ∧
    numCastPd c4col = .ok ⟨.float64, [none]⟩ ∧
    numCastPd hugeCol = .error int64CastError ∧
    processColumnPl defaultConfig 2 c4wcolInt = ⟨.int64, [some (.vint 1), some (.vint 2)]⟩ ∧
    processColumnPl defaultConfig 2 c4plcol = ⟨.float64, [some (.vfloat 1), some (.vfloat 2)]⟩ :=
  ⟨((numeric_step_behavior defaultConfig c4wcolInt 0).1 (by decide) (by decide) (by decide)).1,
   ((numeric_step_behavior defaultConfig c4wcolInt 0).1 (by decide) (by decide)
      (by decide)).2.1 ⟨by decide, by decide, by decide⟩,
   ((numeric_step_behavior defaultConfig c4wcolFloat 0).1 (by decide) (by decide)
      (by decide)).2.2.1 ⟨mkRat 3 2, by decide, by decide⟩,
   ((numeric_step_behavior c4cfg c4col 0).1 (by decide) (by decide) (by decide)).2.2.2.1
     (by decide),
   ((numeric_step_behavior defaultConfig hugeCol 0).1 (by decide) (by decide)
      (by decide)).2.2.2.2
     ⟨by decide, by decide, (123456789012345678901234567890 : Rat), by decide, by decide⟩,
   ((numeric_step_behavior defaultConfig c4wcolInt 2).2 (by decide) (by decide)).1
     (by decide) [some (.vint 1), some (.vint 2)] (by decide) (by decide),
   ((numeric_step_behavior defaultConfig c4plcol 2).2 (by decide) (by decide)).2
     (by decide) [some (.vfloat 1), some (.vfloat 2)] (by decide) (by decide)⟩

/-- C5 counterexample: on the polars branch the normalization described
by the claim (strip + lowercase, `boolRatioPd`) maps all twenty `" true"`
values successfully (ratio 1 ≥ 0.95), yet the code lowercases without
stripping, maps none of them (`plBoolMapCell` ratio 0), and the column
ends up Categorical, not Boolean. -/
theorem polars_bool_no_trim_counterexample :
    boolRatioPd c5col = 1 ∧
    mkRat 95 100 ≤ boolRatioPd c5col ∧
    plRatio 20 20 (c5col.values.map plBoolMapCell) = 0 ∧
    infer_types (.polars c5df) none defaultConfig =
      .ok ⟨[("b", ⟨.category, c5col.values⟩)]⟩ :=
  ⟨by decide, by decide, by decide, rfl⟩

/-- C5 amended: the boolean attempt uses the fixed token table and the
fixed, non-configurable 0.95 threshold in both branches, and the recast
fires if and only if the mapped-success ratio reaches 0.95 — but the
normalization is backend-specific: pandas strips and lowercases every
value (`astype(str).str.strip().str.lower()`), while polars only
lowercases (no strip) and only attempts the boolean step on string
columns. -/
theorem boolean_attempt_behavior (cfg : Config) (c : Column) (total : Nat) :
    (nonNullCount c ≠ 0 →
      ¬ cfg.datetimeThreshold ≤ dtRatioPd c →
      ¬ cfg.numericThreshold ≤ numRatioPd c →
      (processColumnPd cfg c = .ok (boolCastPd c) ↔ mkRat 95 100 ≤ boolRatioPd c)) ∧
    (total - nullCount c.values ≠ 0 →
      plDtCandidate cfg total c = none →
      plTryInt cfg total (total - nullCount c.values) c = none →
      plTryFloat cfg total (total - nullCount c.values) c = none →
      c.dtype = .text →
      (processColumnPl cfg total c = ⟨.boolean, c.values.map plBoolMapCell⟩ ↔
        mkRat 95 100 ≤ plRatio total (total - nullCount c.values)
          (c.values.map plBoolMapCell))) := by
  constructor
  · intro hnn hdt hnum
    constructor
    · intro hres
      by_contra hlt
      unfold processColumnPd at hres
      rw [if_neg hnn, if_neg hdt, if_neg hnum, if_neg hlt] at hres
      by_cases hcat : uniqueRatioPd c ≤ cfg.categoryUniqueRatio
      · rw [if_pos hcat] at hres
        injection hres with hres
        exact Dtype.noConfusion (congrArg Column.dtype hres)
      · rw [if_neg hcat] at hres
        injection hres with hres
        have hvals : c.values =
            c.values.map (fun cell => (boolToken (cellToStr cell)).map Val.vbool) :=
          congrArg Column.values hres
        have hallsucc : ∀ v ∈ nonNull c, (boolToken (valToStr v)).isSome := by
          intro v hv
          have hmem : some v ∈ c.values := mem_nonNull.mp hv
          have hx := eq_of_map_self _ c.values hvals (some v) hmem
          simp only [cellToStr] at hx
          cases hb : boolToken (valToStr v) with
          | none =>
            rw [hb] at hx
            exact Option.noConfusion hx
          | some b => rfl
        have hsucc : boolSuccPd c = nonNullCount c :=
          length_filterMap_of_all _ (nonNull c) hallsucc
        have hratio : boolRatioPd c = 1 := by
          unfold boolRatioPd
          rw [hsucc]
          exact mkRat_nat_self _ hnn
        rw [hratio] at hlt
        exact hlt (by decide)
    · intro hge
      unfold processColumnPd
      rw [if_neg hnn, if_neg hdt, if_neg hnum, if_pos hge]
  · intro hnn hdt hint hfl ht
    constructor
    · intro hres
      by_contra hlt
      have htb : plTryBool cfg total (total - nullCount c.values) c = none := by
        unfold plTryBool
        rw [if_pos ht, if_neg hlt]
      have hstep : processColumnPl cfg total c =
          plCategoryStep cfg (total - nullCount c.values) c := by
        unfold processColumnPl
        rw [if_neg hnn, hdt, hint, hfl, htb]
      rw [hstep] at hres
      unfold plCategoryStep at hres
      by_cases hcat :
          mkRat (plNUnique c) (max 1 (total - nullCount c.values)) ≤ cfg.categoryUniqueRatio
      · rw [if_pos hcat] at hres
        have hcc : plCastCategory c = some c.values := by
          unfold plCastCategory
          rw [if_pos (Or.inl ht)]
        rw [hcc] at hres
        exact Dtype.noConfusion (congrArg Column.dtype hres)
      · rw [if_neg hcat] at hres
        have hdt2 := congrArg Column.dtype hres
        rw [ht] at hdt2
        exact Dtype.noConfusion hdt2
    · intro hge
      have htb : plTryBool cfg total (total - nullCount c.values) c =
          some ⟨.boolean, c.values.map plBoolMapCell⟩ := by
        unfold plTryBool
        rw [if_pos ht, if_pos hge]
      unfold processColumnPl
      rw [if_neg hnn, hdt, hint, hfl, htb]

/-- C5 amended witness: pandas maps `["TRUE ", "no"]` (strip + lower) to
Boolean; polars maps twenty clean lowercase `"true"` tokens to Boolean. -/
theorem boolean_attempt_behavior_witness :
    processColumnPd defaultConfig c5wcol = .ok (boolCastPd c5wcol) ∧
    processColumnPl defaultConfig 20 c5plcol = ⟨.boolean, c5plcol.values.map plBoolMapCell⟩ :=
  ⟨((boolean_attempt_behavior defaultConfig c5wcol 0).1 (by decide) (by decide)
      (by decide)).mpr (by decide),
   ((boolean_attempt_behavior defaultConfig c5plcol 20).2 (by decide) (by decide) (by decide)
      (by decide) rfl).mpr (by decide)⟩

/-- C6 counterexample: on `["a"] * 20 ++ [null]` the claim's ratio
(distinct present values over non-null count, `uniqueRatioPd`) is
1/20 = 0.05 ≤ 0.05, so the claim demands a categorical recast — and the
pandas branch does recast — but polars `n_unique` counts null as a
distinct value, computes 2/20 > 0.05, and leaves the column untouched. -/
theorem polars_nunique_counts_null_counterexample :
    uniqueRatioPd c6col = mkRat 1 20 ∧
    uniqueRatioPd c6col ≤ defaultConfig.categoryUniqueRatio ∧
    plNUnique c6col = 2 ∧
    ¬ mkRat (plNUnique c6col) (max 1 20) ≤ defaultConfig.categoryUniqueRatio ∧
    infer_types (.polars c6df) none defaultConfig = .ok c6df ∧
    infer_types (.pandas c6df) none defaultConfig =
      .ok ⟨[("u", ⟨.category, c6col.values⟩)]⟩ :=
  ⟨by decide, by decide, by decide, by decide, rfl, rfl⟩

/-- C6 amended: when no earlier heuristic matched, the pandas branch
recasts to categorical storage iff `nunique / non_null ≤
category_unique_ratio` with nunique counting distinct present values,
leaving the column untouched otherwise; the polars branch compares
`n_unique / max(1, non_null)` where `n_unique` counts null as a distinct
value, recasts only string or categorical columns, and swallows the cast
exception (column untouched) for other dtypes even when the ratio holds. -/
theorem category_attempt_behavior (cfg : Config) (c : Column) (total : Nat) :
    (nonNullCount c ≠ 0 →
      ¬ cfg.datetimeThreshold ≤ dtRatioPd c →
      ¬ cfg.numericThreshold ≤ numRatioPd c →
      ¬ mkRat 95 100 ≤ boolRatioPd c →
      (uniqueRatioPd c ≤ cfg.categoryUniqueRatio →
        processColumnPd cfg c = .ok (categoryCastPd c)) ∧
      (¬ uniqueRatioPd c ≤ cfg.categoryUniqueRatio → processColumnPd cfg c = .ok c)) ∧
    (total - nullCount c.values ≠ 0 →
      plDtCandidate cfg total c = none →
      plTryInt cfg total (total - nullCount c.values) c = none →
      plTryFloat cfg total (total - nullCount c.values) c = none →
      plTryBool cfg total (total - nullCount c.values) c = none →
      processColumnPl cfg total c = plCategoryStep cfg (total - nullCount c.values) c ∧
      (mkRat (plNUnique c) (max 1 (total - nullCount c.values)) ≤ cfg.categoryUniqueRatio →
        (c.dtype = .text ∨ c.dtype = .category →
          processColumnPl cfg total c = ⟨.category, c.values⟩) ∧
        (¬ (c.dtype = .text ∨ c.dtype = .category) → processColumnPl cfg total c = c)) ∧
      (¬ mkRat (plNUnique c) (max 1 (total - nullCount c.values)) ≤ cfg.categoryUniqueRatio →
        processColumnPl cfg total c = c)) := by
  constructor
  · intro hnn hdt hnum hbool
    constructor
    · intro hcat
      unfold processColumnPd
      rw [if_neg hnn, if_neg hdt, if_neg hnum, if_neg hbool, if_pos hcat]
    · intro hcat
      unfold processColumnPd
      rw [if_neg hnn, if_neg hdt, if_neg hnum, if_neg hbool, if_neg hcat]
  · intro hnn hdt hint hfl htb
    have hstep : processColumnPl cfg total c =
        plCategoryStep cfg (total - nullCount c.values) c := by
      unfold processColumnPl
      rw [if_neg hnn, hdt, hint, hfl, htb]
    refine ⟨hstep, ?_, ?_⟩
    · intro hratio
      constructor
      · intro hok
        rw [hstep]
        unfold plCategoryStep
        rw [if_pos hratio]
        have hcc : plCastCategory c = some c.values := by
          unfold plCastCategory
          rw [if_pos hok]
        rw [hcc]
      · intro hbad
        rw [hstep]
        unfold plCategoryStep
        rw [if_pos hratio]
        have hcc : plCastCategory c = none := by
          unfold plCastCategory
          rw [if_neg hbad]
        rw [hcc]
    · intro hratio
      rw [hstep]
      unfold plCategoryStep
      rw [if_neg hratio]

/-- C6 amended witness: the pandas branch recasts `c6col` to categorical;
the polars branch recasts twenty copies of `"a"` (no null). -/
theorem category_attempt_behavior_witness :
    processColumnPd defaultConfig c6col = .ok (categoryCastPd c6col) ∧
    processColumnPl defaultConfig 20 c6plwcol = ⟨.category, c6plwcol.values⟩ :=
  ⟨((category_attempt_behavior defaultConfig c6col 0).1 (by decide) (by decide) (by decide)
      (by decide)).1 (by decide),
   (((category_attempt_behavior defaultConfig c6plwcol 20).2 (by decide) (by decide) (by decide)
      (by decide) (by decide)).2.1 (by decide)).1 (Or.inl rfl)⟩

theorem map_eq_self_of_fix {α : Type} (l : List α) (g : α → α) (h : ∀ a ∈ l, g a = a) :
    l.map g = l := by
  induction l with
  | nil => rfl
  | cons a t ih =>
    rw [List.map_cons, h a (List.mem_cons_self a t),
      ih (fun x hx => h x (List.mem_cons_of_mem a hx))]

theorem updateCol_fix (df : DF) (name : String) (f : Column → Column)
    (hfix : ∀ p ∈ df.cols, f p.2 = p.2) : updateCol df name f = df := by
  obtain ⟨l⟩ := df
  unfold updateCol
  congr 1
  apply map_eq_self_of_fix
  intro p hp
  by_cases hname : p.1 = name
  · rw [if_pos hname, hfix p hp]
  · rw [if_neg hname]

theorem foldl_updateCol_fix (f : Column → Column) (df : DF)
    (hfix : ∀ p ∈ df.cols, f p.2 = p.2) (l : List String) :
    l.foldl (fun acc name => updateCol acc name f) df = df := by
  induction l with
  | nil => rfl
  | cons n ns ih =>
    show List.foldl _ (updateCol df n f) ns = df
    rw [updateCol_fix df n f hfix]
    exact ih

theorem filterMap_id_eq_nil (l : List Cell) (h : l.all Option.isNone = true) :
    l.filterMap id = [] := by
  induction l with
  | nil => rfl
  | cons a t ih =>
    rw [List.all_cons, Bool.and_eq_true] at h
    cases a with
    | some v => exact Bool.noConfusion h.1
    | none =>
      rw [List.filterMap_cons]
      exact ih h.2

theorem processColumnPd_allNull (cfg : Config) (c : Column)
    (h : c.values.all Option.isNone = true) : processColumnPd cfg c = .ok c := by
  have hnn : nonNullCount c = 0 := by
    unfold nonNullCount nonNull
    rw [filterMap_id_eq_nil c.values h]
    rfl
  unfold processColumnPd
  rw [if_pos hnn]

theorem processColumnPl_allNull (cfg : Config) (c : Column) (total : Nat)
    (htot : total = c.values.length)
    (h : c.values.all Option.isNone = true) : processColumnPl cfg total c = c := by
  have hcnt : nullCount c.values = c.values.length :=
    List.countP_eq_length.mpr (fun a ha => (List.all_eq_true.mp h) a ha)
  have hnn : total - nullCount c.values = 0 := by
    rw [htot, hcnt, Nat.sub_self]
  unfold processColumnPl
  rw [if_pos hnn]

theorem updateColsE_fix (name : String) (f : Column → Except String Column) :
    ∀ (l : List (String × Column)), (∀ p ∈ l, f p.2 = .ok p.2) →
      updateColsE name f l = .ok l := by
  intro l
  induction l with
  | nil =>
    intro _
    rfl
  | cons p ps ih =>
    intro h
    unfold updateColsE
    by_cases hname : p.1 = name
    · rw [if_pos hname, h p (List.mem_cons_self p ps),
        ih (fun x hx => h x (List.mem_cons_of_mem p hx))]
    · rw [if_neg hname, ih (fun x hx => h x (List.mem_cons_of_mem p hx))]

theorem inferTypesPdLoop_fix (cfg : Config) (df : DF)
    (hfix : ∀ p ∈ df.cols, processColumnPd cfg p.2 = .ok p.2) :
    ∀ (l : List String), inferTypesPdLoop cfg l df = (df, none) := by
  intro l
  induction l with
  | nil => rfl
  | cons n ns ih =>
    unfold inferTypesPdLoop
    have hupd : updateColE df n (processColumnPd cfg) = .ok df := by
      unfold updateColE
      rw [updateColsE_fix n (processColumnPd cfg) df.cols hfix]
    rw [hupd]
    exact ih

theorem inferTypesPdCore_empty_frame (cfg : Config) (subset : Option (List String)) (df : DF)
    (h : ∀ p ∈ df.cols, p.2.values = []) : inferTypesPdCore cfg subset df = .ok df := by
  have hfix : ∀ p ∈ df.cols, processColumnPd cfg p.2 = .ok p.2 := by
    intro p hp
    apply processColumnPd_allNull
    rw [h p hp]
    rfl
  unfold inferTypesPdCore
  rw [inferTypesPdLoop_fix cfg df hfix (selectCols df subset)]

theorem inferTypesPlCore_empty_frame (cfg : Config) (subset : Option (List String)) (df : DF)
    (h : ∀ p ∈ df.cols, p.2.values = []) : inferTypesPlCore cfg subset df = df := by
  unfold inferTypesPlCore
  apply foldl_updateCol_fix
  intro p hp
  have hh : height df = 0 := by
    unfold height
    cases hc : df.cols with
    | nil => rfl
    | cons q qs =>
      simp only [hc]
      rw [h q (by rw [hc]; exact List.mem_cons_self q qs)]
      rfl
  apply processColumnPl_allNull
  · rw [hh, h p hp]
    rfl
  · rw [h p hp]
    rfl

theorem subset_filter_idem (df : DF) (subset : List String) :
    selectCols df (some (subset.filter (fun n => (colNames df).contains n))) =
      selectCols df (some subset) := by
  show (subset.filter _).filter _ = subset.filter _
  rw [List.filter_filter]
  congr 1
  funext a
  exact Bool.and_self _

theorem numCastPd_error_msg (c : Column) (e : String) (h : numCastPd c = .error e) :
    e = int64CastError := by
  unfold numCastPd at h
  split_ifs at h
  all_goals
    first
      | exact Except.noConfusion h
      | (injection h with h
         exact h.symm)

theorem processColumnPd_error_msg (cfg : Config) (c : Column) (e : String)
    (h : processColumnPd cfg c = .error e) : e = int64CastError := by
  unfold processColumnPd at h
  split_ifs at h
  all_goals
    first
      | exact Except.noConfusion h
      | exact numCastPd_error_msg c e h

theorem updateColsE_error_msg (name : String) (f : Column → Except String Column)
    (hf : ∀ c e, f c = .error e → e = int64CastError) :
    ∀ (l : List (String × Column)) (e : String),
      updateColsE name f l = .error e → e = int64CastError := by
  intro l
  induction l with
  | nil =>
    intro e h
    exact Except.noConfusion h
  | cons p ps ih =>
    intro e h
    unfold updateColsE at h
    split_ifs at h
    · split at h
      · rename_i c2 hc2
        split at h
        · exact Except.noConfusion h
        · rename_i e2 he2
          injection h with h
          exact h ▸ ih e2 he2
      · rename_i e2 he2
        injection h with h
        exact h ▸ hf p.2 e2 he2
    · split at h
      · exact Except.noConfusion h
      · rename_i e2 he2
        injection h with h
        exact h ▸ ih e2 he2

theorem updateColE_error_msg (df : DF) (name : String) (f : Column → Except String Column)
    (hf : ∀ c e, f c = .error e → e = int64CastError) (e : String)
    (h : updateColE df name f = .error e) : e = int64CastError := by
  unfold updateColE at h
  split at h
  · exact Except.noConfusion h
  · rename_i e2 he2
    injection h with h
    exact h ▸ updateColsE_error_msg name f hf df.cols e2 he2

theorem inferTypesPdLoop_error_msg (cfg : Config) :
    ∀ (l : List String) (df df2 : DF) (e : String),
      inferTypesPdLoop cfg l df = (df2, some e) → e = int64CastError := by
  intro l
  induction l with
  | nil =>
    intro df df2 e h
    injection h with h1 h2
    exact Option.noConfusion h2
  | cons n ns ih =>
    intro df df2 e h
    unfold inferTypesPdLoop at h
    split at h
    · rename_i dfx hdfx
      exact ih dfx df2 e h
    · rename_i e2 he2
      injection h with h1 h2
      injection h2 with h2
      exact h2 ▸ updateColE_error_msg df n (processColumnPd cfg)
        (fun c e3 hc => processColumnPd_error_msg cfg c e3 hc) e2 he2

theorem inferTypesPdCore_error_msg (cfg : Config) (subset : Option (List String)) (df : DF)
    (e : String) (h : inferTypesPdCore cfg subset df = .error e) : e = int64CastError := by
  unfold inferTypesPdCore at h
  split at h
  · exact Except.noConfusion h
  · rename_i df2 e2 hloop
    injection h with h
    exact h ▸ inferTypesPdLoop_error_msg cfg (selectCols df subset) df df2 e2 hloop

/-- C7 counterexample: a valid pandas DataFrame on which `infer_types`
raises.  The 30-digit integral string wins the numeric heuristic
(ratio 1 ≥ 0.6), `_all_int_like` passes (the value has no fractional
remainder), and `full_num.astype("Int64")` raises its `TypeError` — there
is no try/except in the pandas branch — so the error is not confined to
non-tabular inputs. -/
theorem infer_types_raises_on_valid_input :
    infer_types (.pandas hugeDf) none defaultConfig = .error int64CastError ∧
    defaultConfig.numericThreshold ≤ numRatioPd hugeCol ∧
    ¬ defaultConfig.datetimeThreshold ≤ dtRatioPd hugeCol ∧
    (∀ q ∈ (hugeCol.values.map toNumericCellQ).filterMap id, q.den = 1) :=
  ⟨rfl, by decide, by decide, by decide⟩

/-- C7 amended: `infer_types` raises `TypeError` on a non-tabular input
before any processing, and the pandas branch additionally raises the
`astype("Int64")` error — the only other error — when a numeric-winning
column has integral values outside the int64 range.  Apart from that,
per-value parse failures coerce to null and never raise, the polars
branch is total (its dtype-level cast failures are caught by
`try/except`), an empty subset is a no-op, an empty (zero-row) dataset is
returned unchanged, unknown column names in the subset are silently
dropped (processing a subset equals processing its filtered-to-existing
sublist), and an all-null column is skipped in its original type by both
branches. -/
theorem infer_types_error_and_edge_cases :
    (∀ (subset : Option (List String)) (cfg : Config),
      ∃ e, infer_types .notTabular subset cfg = .error e) ∧
    (∀ (df : DF) (subset : Option (List String)) (cfg : Config) (e : String),
      infer_types (.pandas df) subset cfg = .error e → e = int64CastError) ∧
    (∀ (df : DF) (subset : Option (List String)) (cfg : Config),
      infer_types (.polars df) subset cfg = .ok (inferTypesPlCore cfg subset df)) ∧
    (∀ (df : DF) (cfg : Config),
      infer_types (.pandas df) (some []) cfg = .ok df ∧
      infer_types (.polars df) (some []) cfg = .ok df) ∧
    (∀ (df : DF) (subset : List String) (cfg : Config),
      infer_types (.pandas df) (some subset) cfg =
        infer_types (.pandas df)
          (some (subset.filter (fun n => (colNames df).contains n))) cfg ∧
      infer_types (.polars df) (some subset) cfg =
        infer_types (.polars df)
          (some (subset.filter (fun n => (colNames df).contains n))) cfg) ∧
    (∀ (df : DF) (subset : Option (List String)) (cfg : Config),
      (∀ p ∈ df.cols, p.2.values = []) →
      infer_types (.pandas df) subset cfg = .ok df ∧
      infer_types (.polars df) subset cfg = .ok df) ∧
    (∀ (cfg : Config) (c : Column), c.values.all Option.isNone = true →
      processColumnPd cfg c = .ok c) ∧
    (∀ (cfg : Config) (c : Column), c.values.all Option.isNone = true →
      processColumnPl cfg c.values.length c = c) := by
  refine ⟨?_, ?_, ?_, ?_, ?_, ?_, ?_, ?_⟩
  · intro subset cfg
    exact ⟨_, rfl⟩
  · intro df subset cfg e h
    exact inferTypesPdCore_error_msg cfg subset df e h
  · intro df subset cfg
    rfl
  · intro df cfg
    exact ⟨rfl, rfl⟩
  · intro df subset cfg
    constructor
    · have hp : inferTypesPdCore cfg
          (some (subset.filter (fun n => (colNames df).contains n))) df =
          inferTypesPdCore cfg (some subset) df := by
        unfold inferTypesPdCore
        rw [subset_filter_idem df subset]
      simp only [infer_types]
      rw [hp]
    · have hp : inferTypesPlCore cfg
          (some (subset.filter (fun n => (colNames df).contains n))) df =
          inferTypesPlCore cfg (some subset) df := by
        unfold inferTypesPlCore
        rw [subset_filter_idem df subset]
      simp only [infer_types]
      rw [hp]
  · intro df subset cfg h
    constructor
    · simp only [infer_types]
      rw [inferTypesPdCore_empty_frame cfg subset df h]
    · simp only [infer_types]
      rw [inferTypesPlCore_empty_frame cfg subset df h]
  · intro cfg c h
    exact processColumnPd_allNull cfg c h
  · intro cfg c h
    exact processColumnPl_allNull cfg c c.values.length rfl h

/-- C7 amended witness: a non-tabular input errors; the error on
`hugeDf` carries the Int64-cast message; an empty subset, an unknown
subset name and an all-null column are silent no-ops. -/
theorem infer_types_error_and_edge_cases_witness :
    (∃ e, infer_types .notTabular none defaultConfig = .error e) ∧
    infer_types (.pandas hugeDf) none defaultConfig = .error int64CastError ∧
    infer_types (.pandas c7df) (some []) defaultConfig = .ok c7df ∧
    infer_types (.pandas c7df) (some ["zzz", "s"]) defaultConfig =
      infer_types (.pandas c7df) (some ["s"]) defaultConfig ∧
    processColumnPd defaultConfig ⟨.text, [none, none]⟩ = .ok ⟨.text, [none, none]⟩ :=
  ⟨infer_types_error_and_edge_cases.1 none defaultConfig,
   (infer_types_error_and_edge_cases.2.1 hugeDf none defaultConfig int64CastError rfl) ▸ rfl,
   (infer_types_error_and_edge_cases.2.2.2.1 c7df defaultConfig).1,
   (infer_types_error_and_edge_cases.2.2.2.2.1 c7df ["zzz", "s"] defaultConfig).1,
   infer_types_error_and_edge_cases.2.2.2.2.2.2.1 defaultConfig ⟨.text, [none, none]⟩
     (by decide)⟩

end Nullaxe
